import Mathlib

/-!
Shallow embedding of the kanban persistence backend (`src/app.py`).

The program is a Flask service storing one JSON document either in a GitHub
repository file (remote, versioned by a sha token) or a local flat file.
We model JSON values, Python truthiness and membership semantics (including
the `TypeError` raised by `x in v` on non-container values), the process
environment (GitHub configuration, remote file state, failure modes of each
backend, local file state), and each function of `app.py` as a Lean function
threading the environment explicitly.  Python exceptions are modelled with
`Except PyError`.  The local file on disk is abstracted to its parse status:
missing, unparsable text, or a parsed JSON value (Python's `json.dump` /
`json.load` round-trip on JSON-representable values is the identity, so
storing the parsed value is faithful).
-/

namespace Kanban

/-- JSON values as produced by Python's `json.loads`: objects are association
lists with distinct keys in insertion order. -/
inductive Json where
  | null : Json
  | bool (b : Bool) : Json
  | num (n : Int) : Json
  | str (s : String) : Json
  | arr (elems : List Json) : Json
  | obj (fields : List (String × Json)) : Json
deriving Repr

/-- Python exceptions that the embedded code can raise and does not catch. -/
inductive PyError where
  | typeError : PyError
  | attributeError : PyError
deriving DecidableEq, Repr

/-- Python truthiness (`bool(v)`) of a JSON value: `None`, `False`, `0`, `""`,
`[]` and `\x7b\x7d` are falsy, everything else is truthy. -/
def Json.isTruthy : Json → Bool
  | .null => false
  | .bool b => b
  | .num n => decide (n ≠ 0)
  | .str s => !s.isEmpty
  | .arr xs => !xs.isEmpty
  | .obj fs => !fs.isEmpty

/-- Whether the character list `needle` occurs at the head of `hay`. -/
def charsHasPre : List Char → List Char → Bool
  | [], _ => true
  | _ :: _, [] => false
  | a :: as, b :: bs => a == b && charsHasPre as bs

/-- Whether `needle` occurs as a contiguous run anywhere in `hay`
(Python substring containment). -/
def charsContains (needle : List Char) : List Char → Bool
  | [] => needle.isEmpty
  | b :: bs => charsHasPre needle (b :: bs) || charsContains needle bs

/-- Python's `v == key` for a string `key`: only a string equal to `key`
compares equal (Python cross-type `==` with a string is `False`). -/
def Json.eqStr (key : String) : Json → Bool
  | .str t => t == key
  | _ => false

/-- Python's `key in v` for a string `key`: key lookup on a dict, element
equality on a list, substring test on a string; on `None`, booleans and
numbers Python raises `TypeError` (the value is not a container). -/
def Json.memStr (key : String) : Json → Except PyError Bool
  | .str s => .ok (charsContains key.data s.data)
  | .arr xs => .ok (xs.any (Json.eqStr key))
  | .obj fs => .ok (fs.any (fun p => p.1 == key))
  | _ => .error .typeError

/-- Python's `d.get(key, dflt)` on a dict represented as an association list. -/
def dictGet (fields : List (String × Json)) (key : String) (dflt : Json) : Json :=
  match fields.find? (fun p => p.1 == key) with
  | some p => p.2
  | none => dflt

/-- Python's `len(v)`: defined on strings, lists and dicts; `TypeError` on
`None`, booleans and numbers. -/
def pyLen : Json → Except PyError Nat
  | .str s => .ok s.length
  | .arr xs => .ok xs.length
  | .obj fs => .ok fs.length
  | _ => .error .typeError

/-- Evaluation of `len(data.get('columns', []))` from `update_data`:
`.get` exists only on dicts (`AttributeError` otherwise), and `len`
of the looked-up value can itself raise `TypeError`. -/
def columnsCount : Json → Except PyError Nat
  | .obj fs => pyLen (dictGet fs "columns" (Json.arr []))
  | _ => .error .attributeError

/-- Parse status of the local `database.json` file. -/
inductive FileState where
  | missing : FileState
  | unparsable : FileState
  | parsed (j : Json) : FileState
deriving Repr

/-- Process environment: GitHub configuration (presence of `GITHUB_TOKEN`
and `GITHUB_REPO`), the remote `kanban-data.json` content with its sha
(`none` when the file is absent, i.e. GitHub answers 404), failure modes of
each backend call, the local file state, and a counter minting fresh shas. -/
structure Env where
  githubToken : Bool
  githubRepo : Bool
  remoteFile : Option (Json × Nat)
  remoteGetFails : Bool
  remotePutFails : Bool
  localFile : FileState
  localWriteFails : Bool
  shaCtr : Nat
deriving Repr

/-- `DEFAULT_DATA` from `app.py`. -/
def DEFAULT_DATA : Json :=
  Json.obj [
    ("columns", Json.arr [
      Json.obj [("id", Json.num 1), ("name", Json.str "To Do"),
        ("tasks", Json.obj [("major", Json.arr []), ("minor", Json.arr [])])],
      Json.obj [("id", Json.num 2), ("name", Json.str "In Progress"),
        ("tasks", Json.obj [("major", Json.arr []), ("minor", Json.arr [])])],
      Json.obj [("id", Json.num 3), ("name", Json.str "Done"),
        ("tasks", Json.obj [("major", Json.arr []), ("minor", Json.arr [])])]]),
    ("nextColumnId", Json.num 4),
    ("nextTaskId", Json.num 1),
    ("dropdownStates", Json.obj [])]

/-- `is_github_configured`: both environment variables are set (non-empty). -/
def is_github_configured (env : Env) : Bool :=
  env.githubToken && env.githubRepo

/-- `get_github_file`: returns `(None, None)` when unconfigured, on any
request failure or non-200/404 status, and on 404; on 200 returns the parsed
content and its sha.  All exceptions are caught inside the function. -/
def get_github_file (env : Env) : Option Json × Option Nat :=
  if is_github_configured env = false then (none, none)
  else if env.remoteGetFails then (none, none)
  else
    match env.remoteFile with
    | some (j, sha) => (some j, some sha)
    | none => (none, none)

/-- `save_to_github`: `False` when unconfigured or the PUT fails; GitHub's
contents API performs a compare-and-swap on the sha: a PUT with no sha
creates the file (and is rejected when the file already exists), a PUT with
a sha succeeds only when it matches the current sha.  A successful PUT
stores the new content under a fresh sha. -/
def save_to_github (env : Env) (data : Json) (sha : Option Nat) : Bool × Env :=
  if is_github_configured env = false then (false, env)
  else if env.remotePutFails then (false, env)
  else
    match env.remoteFile, sha with
    | none, none =>
        (true, { env with remoteFile := some (data, env.shaCtr), shaCtr := env.shaCtr + 1 })
    | some (_, cur), some s =>
        if s = cur then
          (true, { env with remoteFile := some (data, env.shaCtr), shaCtr := env.shaCtr + 1 })
        else (false, env)
    | none, some _ => (false, env)
    | some _, none => (false, env)

/-- `save_to_local`: writes the document to `database.json`, returning
`False` (file unchanged) on `IOError`. -/
def save_to_local (env : Env) (data : Json) : Bool × Env :=
  if env.localWriteFails then (false, env)
  else (true, { env with localFile := FileState.parsed data })

/-- `load_from_local`: a missing file is initialised with `DEFAULT_DATA`
(ignoring the write's outcome) and the default returned; unparsable content
(`json.JSONDecodeError`) yields the default; a parsed value that is falsy or
lacks `'columns'` (Python membership) yields the default; only
`JSONDecodeError` and `IOError` are caught, so the `TypeError` of
`'columns' not in data` on a truthy non-container value propagates. -/
def load_from_local (env : Env) : Except PyError (Json × Env) :=
  match env.localFile with
  | FileState.missing =>
      let r := save_to_local env DEFAULT_DATA
      Except.ok (DEFAULT_DATA, r.2)
  | FileState.unparsable => Except.ok (DEFAULT_DATA, env)
  | FileState.parsed data =>
      if data.isTruthy = false then Except.ok (DEFAULT_DATA, env)
      else
        match data.memStr "columns" with
        | Except.error e => Except.error e
        | Except.ok b =>
            if b then Except.ok (data, env) else Except.ok (DEFAULT_DATA, env)

/-- `load_data`: when GitHub is configured and yields a truthy document,
return it with its sha and source tag `github`; otherwise fall back to the
local file with no sha and tag `local`. -/
def load_data (env : Env) : Except PyError (Json × Option Nat × String × Env) :=
  match (get_github_file env).1 with
  | some data =>
      if data.isTruthy then Except.ok (data, (get_github_file env).2, "github", env)
      else (load_from_local env).map (fun p => (p.1, none, "local", p.2))
  | none =>
      (load_from_local env).map (fun p => (p.1, none, "local", p.2))

/-- `save_data`: try GitHub when configured, then always write the local
backup; report success when either write succeeded. -/
def save_data (env : Env) (data : Json) (sha : Option Nat) : Bool × Env :=
  let gh := if is_github_configured env then save_to_github env data sha else (false, env)
  let loc := save_to_local gh.2 data
  (gh.1 || loc.1, loc.2)

/-- An HTTP response: status code and JSON body. -/
structure HttpResponse where
  status : Nat
  body : Json
deriving Repr

/-- The body of a POST request as seen by `request.get_json()`: either the
parsed JSON value, or a parse failure (empty body or undecodable JSON, on
which Flask's `get_json` raises a `BadRequest`-family exception). -/
inductive ReqBody where
  | parseFailure : ReqBody
  | value (j : Json) : ReqBody

/-- `get_data` (GET `/api/data`): serves the document from `load_data`;
an exception escaping `load_data` escapes the handler. -/
def get_data (env : Env) : Except PyError (HttpResponse × Env) :=
  (load_data env).map (fun r => (⟨200, r.1⟩, r.2.2.2))

/-- The WSGI layer around `get_data`: Flask converts an uncaught exception
into a 500 Internal Server Error response. -/
def get_data_route (env : Env) : HttpResponse × Env :=
  match get_data env with
  | Except.ok r => r
  | Except.error _ => (⟨500, Json.str "Internal Server Error"⟩, env)

/-- `update_data` (POST `/api/data`): a parse failure in `get_json` is
caught by the handler's blanket `except Exception` and answered with 500
(the exception's text, e.g. `400 Bad Request: ...`, becomes the error
message); a falsy parsed body is answered with 400 `No data provided`; the
debug print evaluates `len(data.get('columns', []))`, whose exception on
non-dict bodies is likewise caught and answered with 500; otherwise the
current sha is fetched when GitHub is configured and `save_data` decides
between the success body and a 500 `Failed to save data`. -/
def update_data (env : Env) (body : ReqBody) : HttpResponse × Env :=
  match body with
  | ReqBody.parseFailure =>
      (⟨500, Json.obj [("error", Json.str "400 Bad Request: Failed to decode JSON object")]⟩, env)
  | ReqBody.value data =>
      if data.isTruthy = false then
        (⟨400, Json.obj [("error", Json.str "No data provided")]⟩, env)
      else
        match columnsCount data with
        | Except.error e =>
            (⟨500, Json.obj [("error", Json.str (reprStr e))]⟩, env)
        | Except.ok _ =>
            let sha := if is_github_configured env then (get_github_file env).2 else none
            let r := save_data env data sha
            if r.1 then
              (⟨200, Json.obj [("success", Json.bool true),
                ("message", Json.str "Data saved successfully"),
                ("storage", Json.str (if is_github_configured env then "github" else "local"))]⟩, r.2)
            else
              (⟨500, Json.obj [("error", Json.str "Failed to save data")]⟩, r.2)

/-- `reset_data` (POST `/api/reset`): fetch the current sha when GitHub is
configured, save `DEFAULT_DATA` through `save_data`, and answer success or
a 500 `Failed to reset data`. -/
def reset_data (env : Env) : HttpResponse × Env :=
  let sha := if is_github_configured env then (get_github_file env).2 else none
  let r := save_data env DEFAULT_DATA sha
  if r.1 then
    (⟨200, Json.obj [("success", Json.bool true),
      ("message", Json.str "Data reset to defaults")]⟩, r.2)
  else
    (⟨500, Json.obj [("error", Json.str "Failed to reset data")]⟩, r.2)

/-- A change record of the document's remote history: commit date, commit
message, short sha. -/
structure HistoryRecord where
  date : String
  message : String
  sha : String
deriving Repr

/-- JSON rendering of a history record. -/
def HistoryRecord.toJson (r : HistoryRecord) : Json :=
  Json.obj [("date", Json.str r.date), ("message", Json.str r.message),
    ("sha", Json.str r.sha)]

/-- Modelled from the spec: the repository's `src/app.py` has no
`/api/history` route, so GET `/api/history` is modelled from spec sections
4.1 and 6.  `commits` is the document's remote change history, newest
first.  When the remote backend is configured the route answers 200 with
the most recent at most 10 records, each `\x7bdate, message, sha\x7d`;
when it is not configured it answers 500 with a `not configured` error. -/
def history_route (env : Env) (commits : List HistoryRecord) : HttpResponse :=
  if is_github_configured env then
    ⟨200, Json.arr ((commits.take 10).map HistoryRecord.toJson)⟩
  else
    ⟨500, Json.obj [("error", Json.str "GitHub not configured")]⟩

/-- Whether the GitHub write performed by `save_data` succeeds: GitHub is
configured, the PUT does not fail at transport level, and the supplied sha
passes the compare-and-swap (matching sha for an update, no sha for a
create). -/
def shaMatches (remote : Option (Json × Nat)) (sha : Option Nat) : Bool :=
  match remote, sha with
  | none, none => true
  | some (_, cur), some s => s == cur
  | _, _ => false

/-- The remote-write-success predicate used to restate `save_data`'s
result. -/
def githubWriteOk (env : Env) (sha : Option Nat) : Bool :=
  is_github_configured env && !env.remotePutFails && shaMatches env.remoteFile sha

/-- Whether a JSON value is a Python dict containing the key `columns`
(the shape every BoardDocument has). -/
def isDocWithColumns : Json → Bool
  | Json.obj fs => fs.any (fun p => p.1 == "columns")
  | _ => false

/-- Whether a JSON value is a Python container (string, list or dict), i.e.
a value on which `key in v` does not raise `TypeError`. -/
def isContainer : Json → Bool
  | Json.str _ => true
  | Json.arr _ => true
  | Json.obj _ => true
  | _ => false

/-- Environment with GitHub configured but both remote calls failing, no
local file yet, and a writable disk. -/
def envRemoteDown : Env :=
  { githubToken := true, githubRepo := true, remoteFile := some (DEFAULT_DATA, 0),
    remoteGetFails := true, remotePutFails := true,
    localFile := FileState.missing, localWriteFails := false, shaCtr := 1 }

/-- A truthy JSON object without a `columns` key. -/
def fooDoc : Json := Json.obj [("foo", Json.num 1)]

/-- Environment with GitHub configured and healthy, whose remote file holds
`fooDoc` (a document lacking `columns`) under sha 7. -/
def envRemoteFoo : Env :=
  { githubToken := true, githubRepo := true, remoteFile := some (fooDoc, 7),
    remoteGetFails := false, remotePutFails := false,
    localFile := FileState.missing, localWriteFails := false, shaCtr := 8 }

/-- Environment with GitHub not configured and a local file parsing to the
JSON number 5 (truthy, not a container). -/
def envLocalNum : Env :=
  { githubToken := false, githubRepo := false, remoteFile := none,
    remoteGetFails := false, remotePutFails := false,
    localFile := FileState.parsed (Json.num 5), localWriteFails := false, shaCtr := 0 }

/-- Environment with GitHub not configured and a healthy local file holding
the default document. -/
def envPlain : Env :=
  { githubToken := false, githubRepo := false, remoteFile := none,
    remoteGetFails := false, remotePutFails := false,
    localFile := FileState.parsed DEFAULT_DATA, localWriteFails := false, shaCtr := 0 }

/-- A non-default board document (one empty column list, counter 2). -/
def staleDoc : Json := Json.obj [("columns", Json.arr []), ("nextColumnId", Json.num 2)]

/-- Environment with GitHub configured, remote reads healthy but remote
writes failing, the remote file holding `staleDoc`, and a writable local
file. -/
def envStale : Env :=
  { githubToken := true, githubRepo := true, remoteFile := some (staleDoc, 3),
    remoteGetFails := false, remotePutFails := true,
    localFile := FileState.parsed DEFAULT_DATA, localWriteFails := false, shaCtr := 9 }

/-- Environment with GitHub not configured and a local file whose JSON is
the object `\x7b"foo": 1\x7d`. -/
def envLocalFoo : Env :=
  { githubToken := false, githubRepo := false, remoteFile := none,
    remoteGetFails := false, remotePutFails := false,
    localFile := FileState.parsed fooDoc, localWriteFails := false, shaCtr := 0 }

/-- Environment with GitHub not configured and a local file holding
unparsable text. -/
def envLocalBad : Env :=
  { githubToken := false, githubRepo := false, remoteFile := none,
    remoteGetFails := false, remotePutFails := false,
    localFile := FileState.unparsable, localWriteFails := false, shaCtr := 0 }

/-- Environment with GitHub not configured, no local file, and a writable
disk. -/
def envEmptyLocal : Env :=
  { githubToken := false, githubRepo := false, remoteFile := none,
    remoteGetFails := false, remotePutFails := false,
    localFile := FileState.missing, localWriteFails := false, shaCtr := 0 }

/-- The example board document from the spec, one column named `X`. -/
def exampleDoc : Json :=
  Json.obj [
    ("columns", Json.arr [
      Json.obj [("id", Json.num 1), ("name", Json.str "X"),
        ("tasks", Json.obj [("major", Json.arr []), ("minor", Json.arr [])])]]),
    ("nextColumnId", Json.num 2),
    ("nextTaskId", Json.num 1),
    ("dropdownStates", Json.obj [])]

/-- Twelve change records, newest first, used to instantiate the history
contract. -/
def sampleHistory : List HistoryRecord :=
  (List.range 12).map (fun i =>
    { date := toString i, message := "Update kanban data", sha := toString (100 + i) })

/-- A board document (dict with a `columns` key) is truthy and passes the
`'columns' in data` membership test. -/
theorem isDoc_truthy_mem (data : Json) (h : isDocWithColumns data = true) :
    data.isTruthy = true ∧ data.memStr "columns" = Except.ok true := by
  cases data with
  | obj fs =>
      refine ⟨?_, ?_⟩
      · cases fs with
        | nil => simp [isDocWithColumns] at h
        | cons a l => simp [Json.isTruthy]
      · simp only [Json.memStr, isDocWithColumns] at h ⊢
        rw [h]
  | null => simp [isDocWithColumns] at h
  | bool b => simp [isDocWithColumns] at h
  | num n => simp [isDocWithColumns] at h
  | str s => simp [isDocWithColumns] at h
  | arr xs => simp [isDocWithColumns] at h

/-- `save_to_github` touches only the remote file and the sha counter. -/
theorem save_to_github_preserves_locals (env : Env) (data : Json) (sha : Option Nat) :
    (save_to_github env data sha).2.githubToken = env.githubToken ∧
    (save_to_github env data sha).2.githubRepo = env.githubRepo ∧
    (save_to_github env data sha).2.localFile = env.localFile ∧
    (save_to_github env data sha).2.localWriteFails = env.localWriteFails := by
  obtain ⟨tok, repo, rf, gf, pf, lf, lwf, sc⟩ := env
  cases tok <;> cases repo <;> cases pf <;> rcases rf with _ | ⟨j, c⟩ <;>
    rcases sha with _ | s <;>
    simp [save_to_github, is_github_configured] <;>
    split <;> simp

/-- The outcome of the GitHub write, as a function of the environment. -/
theorem save_to_github_fst (env : Env) (data : Json) (sha : Option Nat) :
    (save_to_github env data sha).1 =
      (is_github_configured env && !env.remotePutFails &&
        shaMatches env.remoteFile sha) := by
  obtain ⟨tok, repo, rf, gf, pf, lf, lwf, sc⟩ := env
  cases tok <;> cases repo <;> cases pf <;> rcases rf with _ | ⟨j, c⟩ <;>
    rcases sha with _ | s <;>
    simp [save_to_github, is_github_configured, shaMatches] <;>
    split <;> simp_all

/-- When the remote PUT fails at transport level, `save_to_github` does
nothing. -/
theorem save_to_github_putFails (env : Env) (data : Json) (sha : Option Nat)
    (h : env.remotePutFails = true) :
    save_to_github env data sha = (false, env) := by
  unfold save_to_github
  split
  · rfl
  · simp [h]

/-- The local write succeeds exactly when the disk is writable. -/
theorem save_to_local_fst (env : Env) (data : Json) :
    (save_to_local env data).1 = !env.localWriteFails := by
  cases h : env.localWriteFails <;> simp [save_to_local, h]

/-- `save_data` reports success exactly when the remote compare-and-swap
write succeeded or the local write succeeded. -/
theorem save_data_fst_eq (env : Env) (data : Json) (sha : Option Nat) :
    (save_data env data sha).1 = (githubWriteOk env sha || !env.localWriteFails) := by
  unfold save_data githubWriteOk
  cases hc : is_github_configured env with
  | false => simp [hc, save_to_local_fst]
  | true =>
      simp only [hc, if_true, Bool.true_and]
      rw [save_to_local_fst, (save_to_github_preserves_locals env data sha).2.2.2,
        save_to_github_fst, hc]
      simp

/-- When the remote write fails and the disk is writable, `save_data`
succeeds and writes the document to the local file. -/
theorem save_data_when_put_fails (env : Env) (data : Json) (sha : Option Nat)
    (hput : env.remotePutFails = true) (hloc : env.localWriteFails = false) :
    save_data env data sha = (true, { env with localFile := FileState.parsed data }) := by
  unfold save_data
  rw [save_to_github_putFails env data sha hput]
  simp [save_to_local, hloc]

/-- `get_github_file` yields nothing when GitHub is unconfigured or the GET
fails. -/
theorem get_github_file_none (env : Env)
    (h : is_github_configured env = false ∨ env.remoteGetFails = true) :
    get_github_file env = (none, none) := by
  unfold get_github_file
  rcases h with h | h
  · simp [h]
  · cases hc : is_github_configured env <;> simp [h, hc]

/-- When the remote yields nothing, `load_data` is the local path. -/
theorem load_data_local_of_remote_down (env : Env)
    (hget : (get_github_file env).1 = none) :
    load_data env = (load_from_local env).map (fun p => (p.1, none, "local", p.2)) := by
  unfold load_data
  rw [hget]

/-- A local file holding a board document loads as that document. -/
theorem load_from_local_parsed_doc (env : Env) (data : Json)
    (hfile : env.localFile = FileState.parsed data)
    (hdoc : isDocWithColumns data = true) :
    load_from_local env = Except.ok (data, env) := by
  obtain ⟨ht, hm⟩ := isDoc_truthy_mem data hdoc
  unfold load_from_local
  rw [hfile]
  simp [ht, hm]

/-- With the remote down or unconfigured, a local file holding a board
document makes `load_data` return that document from the local path. -/
theorem load_data_of_parsed_doc (env : Env)
    (hdown : is_github_configured env = false ∨ env.remoteGetFails = true)
    (data : Json) (hfile : env.localFile = FileState.parsed data)
    (hdoc : isDocWithColumns data = true) :
    load_data env = Except.ok (data, none, "local", env) := by
  rw [load_data_local_of_remote_down env (by rw [get_github_file_none env hdown])]
  rw [load_from_local_parsed_doc env data hfile hdoc]
  rfl

/-- C1: `save_data` reports overall success exactly when at least one
configured backend write succeeds (the remote compare-and-swap write, or
the local write — which is the only one attempted when GitHub is
unconfigured); and when the remote backend fails (failing PUT and GET) but
the local write succeeds, saving a board document reports success and a
subsequent `load_data` returns that document from the local file. -/
theorem save_success_policy_and_local_fallback :
    (∀ (env : Env) (data : Json) (sha : Option Nat),
      (save_data env data sha).1 = (githubWriteOk env sha || !env.localWriteFails))
    ∧ ∀ (env : Env) (data : Json) (sha : Option Nat),
        env.remotePutFails = true → env.remoteGetFails = true →
        env.localWriteFails = false → isDocWithColumns data = true →
        (save_data env data sha).1 = true ∧
        load_data (save_data env data sha).2 =
          Except.ok (data, none, "local", (save_data env data sha).2) := by
  refine ⟨save_data_fst_eq, ?_⟩
  intro env data sha hput hget hloc hdoc
  have hsd := save_data_when_put_fails env data sha hput hloc
  rw [hsd]
  exact ⟨rfl, load_data_of_parsed_doc
    { env with localFile := FileState.parsed data } (Or.inr hget) data rfl hdoc⟩

/-- C1 witness: concrete instance with GitHub configured but failing, an
initially missing local file, and the default document being saved. -/
theorem save_success_policy_and_local_fallback_witness :
    (save_data envRemoteDown DEFAULT_DATA none).1 = true ∧
    load_data (save_data envRemoteDown DEFAULT_DATA none).2 =
      Except.ok (DEFAULT_DATA, none, "local",
        (save_data envRemoteDown DEFAULT_DATA none).2) :=
  save_success_policy_and_local_fallback.2 envRemoteDown DEFAULT_DATA none
    rfl rfl rfl (by decide)

/-- C4: with GitHub not configured and a writable disk, saving a board
document and then loading returns exactly that document. -/
theorem local_only_roundtrip (env : Env) (data : Json)
    (hcfg : is_github_configured env = false)
    (hloc : env.localWriteFails = false)
    (hdoc : isDocWithColumns data = true) :
    (save_data env data none).1 = true ∧
    load_data (save_data env data none).2 =
      Except.ok (data, none, "local", (save_data env data none).2) := by
  have hsd : save_data env data none =
      (true, { env with localFile := FileState.parsed data }) := by
    unfold save_data
    simp [hcfg, save_to_local, hloc]
  rw [hsd]
  exact ⟨rfl, load_data_of_parsed_doc
    { env with localFile := FileState.parsed data } (Or.inl hcfg) data rfl hdoc⟩

/-- C4 witness: saving the example document from the spec over a missing
local file, GitHub unconfigured. -/
theorem local_only_roundtrip_witness :
    (save_data envEmptyLocal exampleDoc none).1 = true ∧
    load_data (save_data envEmptyLocal exampleDoc none).2 =
      Except.ok (exampleDoc, none, "local",
        (save_data envEmptyLocal exampleDoc none).2) :=
  local_only_roundtrip envEmptyLocal exampleDoc rfl rfl (by decide)

/-- C5: loading with no local file and GitHub unconfigured (and a writable
disk) returns exactly the default document — three columns named
`To Do`, `In Progress`, `Done` with empty major/minor task lists,
`nextColumnId` 4, `nextTaskId` 1, empty `dropdownStates` — and initialises
the local file with that default document. -/
theorem load_default_on_missing_file (env : Env)
    (hcfg : is_github_configured env = false)
    (hfile : env.localFile = FileState.missing)
    (hloc : env.localWriteFails = false) :
    load_data env =
      Except.ok (DEFAULT_DATA, none, "local",
        { env with localFile := FileState.parsed DEFAULT_DATA }) ∧
    DEFAULT_DATA = Json.obj [
      ("columns", Json.arr [
        Json.obj [("id", Json.num 1), ("name", Json.str "To Do"),
          ("tasks", Json.obj [("major", Json.arr []), ("minor", Json.arr [])])],
        Json.obj [("id", Json.num 2), ("name", Json.str "In Progress"),
          ("tasks", Json.obj [("major", Json.arr []), ("minor", Json.arr [])])],
        Json.obj [("id", Json.num 3), ("name", Json.str "Done"),
          ("tasks", Json.obj [("major", Json.arr []), ("minor", Json.arr [])])]]),
      ("nextColumnId", Json.num 4),
      ("nextTaskId", Json.num 1),
      ("dropdownStates", Json.obj [])] := by
  refine ⟨?_, rfl⟩
  rw [load_data_local_of_remote_down _
    (by rw [get_github_file_none _ (Or.inl hcfg)])]
  unfold load_from_local
  rw [hfile]
  simp [save_to_local, hloc]
  rfl

/-- C5 witness: the concrete environment with nothing configured and no
file. -/
theorem load_default_on_missing_file_witness :
    load_data envEmptyLocal =
      Except.ok (DEFAULT_DATA, none, "local",
        { envEmptyLocal with localFile := FileState.parsed DEFAULT_DATA }) :=
  (load_default_on_missing_file envEmptyLocal rfl rfl rfl).1

/-- C2 counterexample: with GitHub configured and healthy and the remote
file holding the object with single key `foo` (no `columns` key),
`load_data` returns that object unvalidated — it is not replaced with the
default document. -/
theorem remote_document_not_validated_cex :
    load_data envRemoteFoo = Except.ok (fooDoc, some 7, "github", envRemoteFoo) ∧
    isDocWithColumns fooDoc = false ∧
    fooDoc ≠ DEFAULT_DATA := by
  refine ⟨rfl, rfl, ?_⟩
  simp [fooDoc, DEFAULT_DATA]

/-- C2 amended: the `columns` validation applies only to documents read
from the local file — a local JSON object lacking the key is replaced with
the default document — while a truthy document fetched from the remote
backend is returned without any validation. -/
theorem columns_validation_local_only :
    (∀ (env : Env) (fs : List (String × Json)),
      is_github_configured env = false →
      env.localFile = FileState.parsed (Json.obj fs) →
      fs.any (fun p => p.1 == "columns") = false →
      load_data env = Except.ok (DEFAULT_DATA, none, "local", env)) ∧
    ∀ (env : Env) (d : Json) (sha : Nat),
      is_github_configured env = true → env.remoteGetFails = false →
      env.remoteFile = some (d, sha) → d.isTruthy = true →
      load_data env = Except.ok (d, some sha, "github", env) := by
  constructor
  · intro env fs hcfg hfile hnc
    rw [load_data_local_of_remote_down env
      (by rw [get_github_file_none env (Or.inl hcfg)])]
    unfold load_from_local
    rw [hfile]
    cases fs with
    | nil => simp [Json.isTruthy, Except.map]
    | cons a l => simp [Json.isTruthy, Json.memStr, hnc, Except.map]
  · intro env d sha hcfg hget hrf htr
    unfold load_data get_github_file
    simp [hcfg, hget, hrf, htr]

/-- C2 witness: the local object lacking `columns` is replaced by the
default; the remote object lacking `columns` is served as is. -/
theorem columns_validation_local_only_witness :
    load_data envLocalFoo = Except.ok (DEFAULT_DATA, none, "local", envLocalFoo) ∧
    load_data envRemoteFoo = Except.ok (fooDoc, some 7, "github", envRemoteFoo) :=
  ⟨columns_validation_local_only.1 envLocalFoo [("foo", Json.num 1)] rfl rfl (by decide),
   columns_validation_local_only.2 envRemoteFoo fooDoc 7 rfl rfl rfl (by decide)⟩

/-- C3 (modelled from the spec; `src/app.py` contains no `/api/history`
route): with the remote unconfigured the history route answers 500 with a
`not configured` error body — never a list, in particular never the empty
list — and with the remote configured it answers 200 with the most recent
at most 10 change records, newest first, each rendered with `date`,
`message` and `sha` fields. -/
theorem history_route_contract (env : Env) (commits : List HistoryRecord) :
    (is_github_configured env = false →
      (history_route env commits).status = 500 ∧
      (history_route env commits).body =
        Json.obj [("error", Json.str "GitHub not configured")] ∧
      ∀ xs : List Json, (history_route env commits).body ≠ Json.arr xs) ∧
    (is_github_configured env = true →
      (history_route env commits).status = 200 ∧
      (history_route env commits).body =
        Json.arr ((commits.take 10).map HistoryRecord.toJson) ∧
      (commits.take 10).length ≤ 10) := by
  constructor
  · intro h
    refine ⟨by simp [history_route, h], by simp [history_route, h], ?_⟩
    intro xs
    simp [history_route, h]
  · intro h
    refine ⟨by simp [history_route, h], by simp [history_route, h], ?_⟩
    rw [List.length_take]
    exact min_le_left _ _

/-- C3 witness: twelve records give a 500 without the remote and the ten
newest records with it. -/
theorem history_route_contract_witness :
    (history_route envEmptyLocal sampleHistory).status = 500 ∧
    (history_route envRemoteFoo sampleHistory).status = 200 ∧
    (history_route envRemoteFoo sampleHistory).body =
      Json.arr ((sampleHistory.take 10).map HistoryRecord.toJson) :=
  ⟨((history_route_contract envEmptyLocal sampleHistory).1 rfl).1,
   ((history_route_contract envRemoteFoo sampleHistory).2 rfl).1,
   ((history_route_contract envRemoteFoo sampleHistory).2 rfl).2.1⟩

/-- The local-path cases in which `load_from_local` returns the default
document and leaves the file untouched. -/
theorem load_from_local_default (env : Env)
    (h : env.localFile = FileState.unparsable ∨
      (∃ j, env.localFile = FileState.parsed j ∧ j.isTruthy = false) ∨
      ∃ fs, env.localFile = FileState.parsed (Json.obj fs) ∧
        fs.any (fun p => p.1 == "columns") = false) :
    load_from_local env = Except.ok (DEFAULT_DATA, env) := by
  unfold load_from_local
  rcases h with h | ⟨j, hf, ht⟩ | ⟨fs, hf, hnc⟩
  · rw [h]
  · rw [hf]; simp [ht]
  · rw [hf]
    cases fs with
    | nil => simp [Json.isTruthy]
    | cons a l => simp [Json.isTruthy, Json.memStr, hnc]

/-- C6 counterexample: a local file whose text is valid JSON for the number
`5` (a value without a `columns` key) makes `load_data` raise `TypeError`
instead of returning the default document. -/
theorem load_raises_on_scalar_local_file_cex :
    load_data envLocalNum = Except.error PyError.typeError := rfl

/-- C6 amended: for local content that is unparsable, or parses to a falsy
value, or parses to a JSON object lacking the `columns` key, `load_data`
(GitHub unconfigured) returns the default document without raising an
error and without writing the default back to the local file; a truthy
non-container value such as the number 5 instead raises an uncaught
`TypeError` (only `JSONDecodeError` and `IOError` are caught). -/
theorem corrupt_local_file_yields_default :
    (∀ env : Env, is_github_configured env = false →
      (env.localFile = FileState.unparsable ∨
        (∃ j, env.localFile = FileState.parsed j ∧ j.isTruthy = false) ∨
        ∃ fs, env.localFile = FileState.parsed (Json.obj fs) ∧
          fs.any (fun p => p.1 == "columns") = false) →
      load_data env = Except.ok (DEFAULT_DATA, none, "local", env)) ∧
    load_data envLocalNum = Except.error PyError.typeError := by
  constructor
  · intro env hcfg h
    rw [load_data_local_of_remote_down env
      (by rw [get_github_file_none env (Or.inl hcfg)])]
    rw [load_from_local_default env h]
    rfl
  · rfl

/-- C6 witness: unparsable local content and a local object lacking
`columns` both load as the default with the file untouched. -/
theorem corrupt_local_file_yields_default_witness :
    load_data envLocalBad = Except.ok (DEFAULT_DATA, none, "local", envLocalBad) ∧
    load_data envLocalFoo = Except.ok (DEFAULT_DATA, none, "local", envLocalFoo) :=
  ⟨corrupt_local_file_yields_default.1 envLocalBad rfl (Or.inl rfl),
   corrupt_local_file_yields_default.1 envLocalFoo rfl
     (Or.inr (Or.inr ⟨[("foo", Json.num 1)], rfl, by decide⟩))⟩

/-- C7 counterexample: a POST body on which JSON parsing fails (empty body
or invalid JSON text) is answered with status 500, not 400 — the
`BadRequest` raised by `get_json` is caught by the handler's blanket
`except Exception` — though the local file is indeed left unchanged. -/
theorem parse_failure_answered_500_cex :
    (update_data envPlain ReqBody.parseFailure).1.status = 500 ∧
    ¬ (update_data envPlain ReqBody.parseFailure).1.status = 400 ∧
    (update_data envPlain ReqBody.parseFailure).2 = envPlain :=
  ⟨rfl, by decide, rfl⟩

/-- C7 amended: a POST `/api/data` whose body is empty or not valid JSON is
rejected and the local file is left unchanged, but the status is 500 — the
JSON parse error is caught by the endpoint's blanket exception handler —
while 400 `No data provided` is answered only for a body that parses to a
falsy value; in every reject path the environment is unchanged. -/
theorem bad_body_rejected_env_unchanged :
    (∀ env : Env, (update_data env ReqBody.parseFailure).1.status = 500 ∧
      (update_data env ReqBody.parseFailure).2 = env) ∧
    ∀ (env : Env) (j : Json), j.isTruthy = false →
      update_data env (ReqBody.value j) =
        (⟨400, Json.obj [("error", Json.str "No data provided")]⟩, env) := by
  constructor
  · intro env
    exact ⟨rfl, rfl⟩
  · intro env j hj
    unfold update_data
    simp [hj]

/-- C7 witness: a failing parse gives 500 and a `null` body gives 400, both
leaving the environment alone. -/
theorem bad_body_rejected_env_unchanged_witness :
    ((update_data envPlain ReqBody.parseFailure).1.status = 500 ∧
      (update_data envPlain ReqBody.parseFailure).2 = envPlain) ∧
    update_data envPlain (ReqBody.value Json.null) =
      (⟨400, Json.obj [("error", Json.str "No data provided")]⟩, envPlain) :=
  ⟨bad_body_rejected_env_unchanged.1 envPlain,
   bad_body_rejected_env_unchanged.2 envPlain Json.null rfl⟩

/-- `DEFAULT_DATA` is truthy. -/
theorem DEFAULT_DATA_truthy : DEFAULT_DATA.isTruthy = true := rfl

/-- C8 counterexample: with the remote readable but its writes failing,
`reset_data` reports success (the local write succeeded) yet the following
`get_data` serves the stale document still stored remotely — not the
default document. -/
theorem reset_success_then_stale_get_cex :
    (reset_data envStale).1.status = 200 ∧
    get_data (reset_data envStale).2 =
      Except.ok (⟨200, staleDoc⟩, (reset_data envStale).2) ∧
    staleDoc ≠ DEFAULT_DATA := by
  refine ⟨rfl, rfl, ?_⟩
  simp [staleDoc, DEFAULT_DATA]

/-- C8 amended: when every backend the reset writes to is functioning —
GitHub unconfigured with a writable disk, or GitHub configured with
healthy reads and writes — `reset_data` succeeds and the following
`get_data` serves exactly the default document; when the remote write
fails but the local write succeeds, reset still reports success while a
subsequent `get_data` served from the remote returns the stale remote
document. -/
theorem reset_then_get_default_when_backends_ok (env : Env)
    (h : (is_github_configured env = false ∧ env.localWriteFails = false) ∨
      (is_github_configured env = true ∧ env.remoteGetFails = false ∧
        env.remotePutFails = false)) :
    (reset_data env).1.status = 200 ∧
    get_data (reset_data env).2 =
      Except.ok (⟨200, DEFAULT_DATA⟩, (reset_data env).2) := by
  rcases h with ⟨hcfg, hloc⟩ | ⟨hcfg, hget, hput⟩
  · have hr : reset_data env =
        (⟨200, Json.obj [("success", Json.bool true),
          ("message", Json.str "Data reset to defaults")]⟩,
         { env with localFile := FileState.parsed DEFAULT_DATA }) := by
      unfold reset_data save_data
      simp [hcfg, save_to_local, hloc]
    rw [hr]
    refine ⟨rfl, ?_⟩
    unfold get_data
    rw [load_data_of_parsed_doc { env with localFile := FileState.parsed DEFAULT_DATA }
      (Or.inl hcfg) DEFAULT_DATA rfl (by decide)]
    rfl
  · obtain ⟨tok, repo, rf, gf, pf, lf, lwf, sc⟩ := env
    simp only [is_github_configured] at hcfg
    simp only at hget hput
    subst hget hput
    rcases rf with _ | ⟨x, c⟩ <;> cases lwf <;>
      simp [reset_data, save_data, save_to_github, save_to_local, get_data,
        load_data, get_github_file, is_github_configured, hcfg,
        DEFAULT_DATA_truthy, Except.map]

/-- C8 witness: the unconfigured and the healthy configured cases at
concrete environments. -/
theorem reset_then_get_default_when_backends_ok_witness :
    ((reset_data envEmptyLocal).1.status = 200 ∧
      get_data (reset_data envEmptyLocal).2 =
        Except.ok (⟨200, DEFAULT_DATA⟩, (reset_data envEmptyLocal).2)) ∧
    ((reset_data envRemoteFoo).1.status = 200 ∧
      get_data (reset_data envRemoteFoo).2 =
        Except.ok (⟨200, DEFAULT_DATA⟩, (reset_data envRemoteFoo).2)) :=
  ⟨reset_then_get_default_when_backends_ok envEmptyLocal (Or.inl ⟨rfl, rfl⟩),
   reset_then_get_default_when_backends_ok envRemoteFoo (Or.inr ⟨rfl, rfl, rfl⟩)⟩

/-- C9 counterexample: GET `/api/data` is not infallible — with GitHub
unconfigured and the local file parsing to the number 5, the membership
test raises an uncaught `TypeError` and Flask answers 500. -/
theorem get_data_route_500_cex :
    (get_data_route envLocalNum).1.status = 500 ∧
    get_data envLocalNum = Except.error PyError.typeError :=
  ⟨rfl, rfl⟩

/-- When the local file never parses to a truthy non-container value,
`load_from_local` does not raise. -/
theorem load_from_local_ok (env : Env)
    (hsafe : ∀ j, env.localFile = FileState.parsed j → j.isTruthy = true →
      isContainer j = true) :
    ∃ p, load_from_local env = Except.ok p := by
  unfold load_from_local
  cases hf : env.localFile with
  | missing => exact ⟨_, rfl⟩
  | unparsable => exact ⟨_, rfl⟩
  | parsed j =>
      cases ht : j.isTruthy with
      | false => exact ⟨(DEFAULT_DATA, env), by simp [ht]⟩
      | true =>
          have hc := hsafe j hf ht
          cases j with
          | null => simp [Json.isTruthy] at ht
          | bool b => simp [isContainer] at hc
          | num n => simp [isContainer] at hc
          | str s =>
              cases hb : charsContains "columns".data s.data with
              | true => exact ⟨(Json.str s, env), by simp [ht, Json.memStr, hb]⟩
              | false => exact ⟨(DEFAULT_DATA, env), by simp [ht, Json.memStr, hb]⟩
          | arr xs =>
              cases hb : xs.any (Json.eqStr "columns") with
              | true => exact ⟨(Json.arr xs, env), by simp [ht, Json.memStr, hb]⟩
              | false => exact ⟨(DEFAULT_DATA, env), by simp [ht, Json.memStr, hb]⟩
          | obj fs =>
              cases hb : fs.any (fun p => p.1 == "columns") with
              | true => exact ⟨(Json.obj fs, env), by simp [ht, Json.memStr, hb]⟩
              | false => exact ⟨(DEFAULT_DATA, env), by simp [ht, Json.memStr, hb]⟩

/-- `load_data` does not raise when the local file is safe. -/
theorem load_data_ok (env : Env)
    (hsafe : ∀ j, env.localFile = FileState.parsed j → j.isTruthy = true →
      isContainer j = true) :
    ∃ d s t e, load_data env = Except.ok (d, s, t, e) := by
  unfold load_data
  cases hg : (get_github_file env).1 with
  | some data =>
      cases ht : data.isTruthy with
      | true => exact ⟨data, (get_github_file env).2, "github", env, by simp [ht]⟩
      | false =>
          obtain ⟨p, hp⟩ := load_from_local_ok env hsafe
          exact ⟨p.1, none, "local", p.2, by simp [ht, hp, Except.map]⟩
  | none =>
      obtain ⟨p, hp⟩ := load_from_local_ok env hsafe
      exact ⟨p.1, none, "local", p.2, by simp [hp, Except.map]⟩

/-- C9 amended: GET `/api/data` answers 200 with a document for every
backend state in which the local file does not parse to a truthy
non-container value; when it does (for example the number 5), the
membership test raises `TypeError` and the route answers 500. -/
theorem get_data_always_200_when_local_safe (env : Env)
    (hsafe : ∀ j, env.localFile = FileState.parsed j → j.isTruthy = true →
      isContainer j = true) :
    (get_data_route env).1.status = 200 := by
  obtain ⟨d, s, t, e, hl⟩ := load_data_ok env hsafe
  simp [get_data_route, get_data, hl, Except.map]

/-- C9 witness: the route answers 200 over a healthy local file. -/
theorem get_data_always_200_when_local_safe_witness :
    (get_data_route envPlain).1.status = 200 :=
  get_data_always_200_when_local_safe envPlain (by
    intro j hj ht
    rw [show envPlain.localFile = FileState.parsed DEFAULT_DATA from rfl] at hj
    cases hj
    rfl)

/-- C10: a POST `/api/data` whose body is well-formed JSON parsing to a
falsy value is rejected with 400 `No data provided`, and the environment —
both backends — is left untouched. -/
theorem falsy_json_body_rejected (env : Env) (j : Json)
    (hj : j.isTruthy = false) :
    update_data env (ReqBody.value j) =
      (⟨400, Json.obj [("error", Json.str "No data provided")]⟩, env) := by
  unfold update_data
  simp [hj]

/-- C10 witness: each falsy JSON body — empty object, empty array, `false`,
`0`, `null`, empty string — is rejected with 400 at a concrete
environment. -/
theorem falsy_json_body_rejected_witness :
    update_data envPlain (ReqBody.value (Json.obj [])) =
      (⟨400, Json.obj [("error", Json.str "No data provided")]⟩, envPlain) ∧
    update_data envPlain (ReqBody.value (Json.arr [])) =
      (⟨400, Json.obj [("error", Json.str "No data provided")]⟩, envPlain) ∧
    update_data envPlain (ReqBody.value (Json.bool false)) =
      (⟨400, Json.obj [("error", Json.str "No data provided")]⟩, envPlain) ∧
    update_data envPlain (ReqBody.value (Json.num 0)) =
      (⟨400, Json.obj [("error", Json.str "No data provided")]⟩, envPlain) ∧
    update_data envPlain (ReqBody.value Json.null) =
      (⟨400, Json.obj [("error", Json.str "No data provided")]⟩, envPlain) ∧
    update_data envPlain (ReqBody.value (Json.str "")) =
      (⟨400, Json.obj [("error", Json.str "No data provided")]⟩, envPlain) :=
  ⟨falsy_json_body_rejected envPlain (Json.obj []) rfl,
   falsy_json_body_rejected envPlain (Json.arr []) rfl,
   falsy_json_body_rejected envPlain (Json.bool false) rfl,
   falsy_json_body_rejected envPlain (Json.num 0) (by decide),
   falsy_json_body_rejected envPlain Json.null rfl,
   falsy_json_body_rejected envPlain (Json.str "") rfl⟩

end Kanban
